import Mathlib

/-!
Shallow embedding of the Kalongo hotel back office (Django backend).

Money values are `ℚ` (the source uses `decimal.Decimal`, whose operations are
exact at the scales involved). Database tables are Lean lists; rows keep the
source fields the verified claims touch. Each HTTP endpoint becomes a function
`... → Sys → Except Err α × Sys`: the returned `Sys` is the post-state, and an
error result is paired with the unchanged pre-state, which mirrors the
endpoints' early `return Response(..., status=4xx)` paths and Django's
transaction rollback. Timestamps are abstract day counters (`Nat`).
-/

namespace Kalongo

/-- Error taxonomy: each constructor models one of the 4xx early-return
responses of the Django views (or a serializer validation failure / rollback). -/
inductive Err where
  | notFound
  | invalidState
  | folioClosed
  | noFolio
  | alreadyClosed
  | validation
deriving DecidableEq, Repr

/-- `finance.models.Tax.tax_type` choices. -/
inductive TaxType where
  | inclusive
  | exclusive
deriving DecidableEq, Repr

/-- `finance.models.Tax`: percentage, type, applicable sectors (empty = all),
active flag. -/
structure Tax where
  percentage : ℚ
  tax_type : TaxType
  sectors : List String
  is_active : Bool
deriving DecidableEq, Repr

/-- The loop body of `hotel.views.apply_taxes`: iterate the taxes, skipping a
tax whose `sectors` list is nonempty and does not contain `sector`; an
`exclusive` tax adds `amount * (percentage / 100)`; an `inclusive` tax adds
nothing. -/
def hotelTaxLoop (amount : ℚ) (sector : String) : List Tax → ℚ
  | [] => 0
  | t :: ts =>
    if t.sectors ≠ [] ∧ sector ∉ t.sectors then hotelTaxLoop amount sector ts
    else if t.tax_type = TaxType.exclusive then
      amount * (t.percentage / 100) + hotelTaxLoop amount sector ts
    else hotelTaxLoop amount sector ts

/-- `hotel.views.apply_taxes(amount_before_tax, sector)`: runs the loop over
the active taxes and returns `(tax_amount, amount_after_tax)`. -/
def apply_taxes (taxes : List Tax) (amount_before_tax : ℚ) (sector : String) : ℚ × ℚ :=
  let tax_amount := hotelTaxLoop amount_before_tax sector (taxes.filter (fun t => t.is_active))
  (tax_amount, amount_before_tax + tax_amount)

/-- The loop body of `pos.views._apply_taxes` (textually independent from the
hotel loop in the source, hence a separate definition). -/
def posTaxLoop (amount : ℚ) (sector : String) : List Tax → ℚ
  | [] => 0
  | t :: ts =>
    if t.sectors ≠ [] ∧ sector ∉ t.sectors then posTaxLoop amount sector ts
    else if t.tax_type = TaxType.exclusive then
      amount * (t.percentage / 100) + posTaxLoop amount sector ts
    else posTaxLoop amount sector ts

/-- `pos.views._apply_taxes(amount, sector)`: tax total over active taxes. -/
def pos_apply_taxes (taxes : List Tax) (amount : ℚ) (sector : String) : ℚ :=
  posTaxLoop amount sector (taxes.filter (fun t => t.is_active))

/-- The inline tax loop of `pos.serializers.OrderCreateSerializer.create`
(lines 84-90), again textually independent in the source. -/
def orderTaxLoop (total_before : ℚ) (sector : String) : List Tax → ℚ
  | [] => 0
  | t :: ts =>
    if t.sectors ≠ [] ∧ sector ∉ t.sectors then orderTaxLoop total_before sector ts
    else if t.tax_type = TaxType.exclusive then
      total_before * (t.percentage / 100) + orderTaxLoop total_before sector ts
    else orderTaxLoop total_before sector ts

/-- The tax total as `OrderCreateSerializer.create` computes it: the inline
loop over the active taxes with the order's sector. -/
def order_tax_total (taxes : List Tax) (total_before : ℚ) (sector : String) : ℚ :=
  orderTaxLoop total_before sector (taxes.filter (fun t => t.is_active))

/-- The predicate of C4's summation reading: active, sector-applicable
(empty scope or scope containing the sector), exclusive type. -/
def taxApplies (sector : String) (t : Tax) : Bool :=
  t.is_active && (t.sectors.isEmpty || decide (sector ∈ t.sectors)) &&
    decide (t.tax_type = TaxType.exclusive)

/-- An 18% exclusive tax scoped to all sectors (Scenario A's schedule). -/
def vat18 : Tax := { percentage := 18, tax_type := TaxType.exclusive, sectors := [], is_active := true }

/-- `hotel.models.Booking.STATUS_CHOICES`. -/
inductive BookingStatus where
  | pending
  | confirmed
  | checked_in
  | checked_out
  | cancelled
deriving DecidableEq, Repr

/-- `hotel.models.Room.STATUS_CHOICES`. -/
inductive RoomStatus where
  | vacant
  | occupied
  | reserved
  | maintenance
deriving DecidableEq, Repr

/-- `hotel.models.Folio.status` choices (`'open'` is rendered `opened` because
`open` is a Lean keyword). -/
inductive FolioStatus where
  | opened
  | closed
deriving DecidableEq, Repr

/-- `pos.models.Order.PAYMENT_CHOICES`. -/
inductive PaymentIntent where
  | pay_now
  | post_to_room
deriving DecidableEq, Repr

/-- A `hotel.models.Room` row. -/
structure RoomR where
  rid : Nat
  status : RoomStatus
deriving DecidableEq, Repr

/-- A `hotel.models.Booking` row (the fields the claims touch). -/
structure BookingR where
  bid : Nat
  room : Nat
  status : BookingStatus
deriving DecidableEq, Repr

/-- A `hotel.models.Folio` row. -/
structure FolioR where
  fid : Nat
  booking : Nat
  is_primary : Bool
  status : FolioStatus
  closed_at : Option Nat
deriving DecidableEq, Repr

/-- A `hotel.models.FolioCharge` row. -/
structure ChargeR where
  folio : Nat
  sector : String
  quantity : ℚ
  unit_price : ℚ
  amount_before_tax : ℚ
  tax_amount : ℚ
  amount_after_tax : ℚ
  pos_order_id : Option Nat
  posted_at : Nat
deriving DecidableEq, Repr

/-- A `hotel.models.FolioPayment` row. -/
structure PaymentR where
  pid : Nat
  folio : Nat
  amount : ℚ
  receipt_issued : Bool
deriving DecidableEq, Repr

/-- A `hotel.models.Receipt` row (linked one-to-one to its payment). -/
structure ReceiptR where
  folio_payment : Nat
  amount : ℚ
deriving DecidableEq, Repr

/-- A `pos.models.Order` row. -/
structure OrderR where
  oid : Nat
  sector : String
  payment_intent : PaymentIntent
  folio : Option Nat
  total_before_tax : ℚ
  total_tax : ℚ
  total_amount : ℚ
  completed_at : Option Nat
deriving DecidableEq, Repr

/-- A `finance.models.Expense` row. -/
structure ExpenseR where
  sector : String
  amount : ℚ
  created_day : Nat
deriving DecidableEq, Repr

/-- A `finance.models.Salary` row. -/
structure SalaryR where
  amount : ℚ
  month : Nat
deriving DecidableEq, Repr

/-- One row of `OrderCreateSerializer`'s `items` input. -/
structure OrderItemIn where
  menu_item_id : Nat
  quantity : Nat
deriving DecidableEq, Repr

/-- The persistent state: one list per relevant table plus autoincrement
counters and the clock. `folios` is kept newest-first, matching the model's
`ordering = ['-created_at']` that `Booking.folio`'s `.first()` relies on;
charges and payments are appended at the tail (`posted_at` / `confirmed_at`
ascending). `menu_items` maps menu-item id to its fixed price. -/
structure Sys where
  rooms : List RoomR
  bookings : List BookingR
  folios : List FolioR
  charges : List ChargeR
  payments : List PaymentR
  receipts : List ReceiptR
  orders : List OrderR
  taxes : List Tax
  menu_items : List (Nat × ℚ)
  expenses : List ExpenseR
  salaries : List SalaryR
  nextBookingId : Nat
  nextFolioId : Nat
  nextPaymentId : Nat
  nextOrderId : Nat
  now : Nat
deriving DecidableEq, Repr

/-- Row lookup: the first list element satisfying the predicate, mirroring
Django's `.get(...)` / `.filter(...).first()` on the stored ordering. -/
def findRow {α : Type} (q : α → Prop) [DecidablePred q] : List α → Option α
  | [] => none
  | x :: xs => if q x then some x else findRow q xs

/-- `Booking.objects.get(pk=pk)`. -/
def lookupBooking (s : Sys) (pk : Nat) : Option BookingR :=
  findRow (fun b => b.bid = pk) s.bookings

/-- `Room.objects.get(pk=pk)` / FK dereference `booking.room`. -/
def lookupRoom (s : Sys) (pk : Nat) : Option RoomR :=
  findRow (fun r => r.rid = pk) s.rooms

/-- `Folio.objects.get(pk=pk)` / `Folio.objects.filter(pk=...).first()`. -/
def lookupFolio (s : Sys) (pk : Nat) : Option FolioR :=
  findRow (fun f => f.fid = pk) s.folios

/-- `Booking.folio`: `self.folios.filter(is_primary=True).first()` under the
newest-first ordering. -/
def primaryFolio (s : Sys) (pk : Nat) : Option FolioR :=
  findRow (fun f => f.booking = pk ∧ f.is_primary = true) s.folios

/-- `booking.save(update_fields=['status'])`: update the row with this pk. -/
def setBookingStatus (l : List BookingR) (pk : Nat) (st : BookingStatus) : List BookingR :=
  l.map (fun b => if b.bid = pk then { b with status := st } else b)

/-- `room.save(update_fields=['status'])`. -/
def setRoomStatus (l : List RoomR) (pk : Nat) (st : RoomStatus) : List RoomR :=
  l.map (fun r => if r.rid = pk then { r with status := st } else r)

/-- `folio.save(update_fields=['status', 'closed_at'])` in `check_out`. -/
def closeFolioRow (l : List FolioR) (pk clock : Nat) : List FolioR :=
  l.map (fun f => if f.fid = pk then { f with status := FolioStatus.closed, closed_at := some clock } else f)

/-- The folio `check_in` creates:
`Folio.objects.create(booking=booking, is_primary=True, status='open')`. -/
def newFolio (s : Sys) (pk : Nat) : FolioR :=
  { fid := s.nextFolioId, booking := pk, is_primary := true,
    status := FolioStatus.opened, closed_at := none }

/-- `Folio.total_charges`: sum of this folio's charges' `amount_after_tax`
(`Sum(...) or Decimal('0')`). -/
def total_charges (s : Sys) (fid : Nat) : ℚ :=
  ((s.charges.filter (fun c => c.folio == fid)).map (fun c => c.amount_after_tax)).sum

/-- `Folio.total_payments`: sum of this folio's payments' `amount`. -/
def total_payments (s : Sys) (fid : Nat) : ℚ :=
  ((s.payments.filter (fun p => p.folio == fid)).map (fun p => p.amount)).sum

/-- `Folio.balance = total_charges - total_payments`. -/
def balance (s : Sys) (fid : Nat) : ℚ :=
  total_charges s fid - total_payments s fid

/-- The invoice snapshot `check_out` returns. -/
structure Invoice where
  total_charges : ℚ
  total_payments : ℚ
  balance : ℚ
deriving DecidableEq, Repr

/-- `BookingCreate.perform_create` + `BookingCreateSerializer.create`: a new
booking starts in the model-default `pending` status; no folio is created
("Folio created at check-in, not at booking"). -/
def create_booking (room : Nat) (s : Sys) : Except Err BookingR × Sys :=
  let b : BookingR := { bid := s.nextBookingId, room := room, status := BookingStatus.pending }
  (Except.ok b, { s with bookings := s.bookings ++ [b], nextBookingId := s.nextBookingId + 1 })

/-- `BookingDetail` (`RetrieveUpdateAPIView` with `BookingSerializer`): the
`status` field is writable, so a PATCH can set any status choice. -/
def update_booking_status (pk : Nat) (st : BookingStatus) (s : Sys) : Except Err Unit × Sys :=
  match lookupBooking s pk with
  | none => (Except.error Err.notFound, s)
  | some _ => (Except.ok (), { s with bookings := setBookingStatus s.bookings pk st })

/-- `hotel.views.check_in`: 404 on a missing booking; 400 when the status is
neither `confirmed` nor `pending`; otherwise, in one transaction, create an
open primary folio, set the booking `checked_in` and its room `occupied`. -/
def check_in (pk : Nat) (s : Sys) : Except Err FolioR × Sys :=
  match lookupBooking s pk with
  | none => (Except.error Err.notFound, s)
  | some booking =>
    if booking.status ≠ BookingStatus.confirmed ∧ booking.status ≠ BookingStatus.pending then
      (Except.error Err.invalidState, s)
    else
      (Except.ok (newFolio s pk),
        { s with
          folios := newFolio s pk :: s.folios,
          nextFolioId := s.nextFolioId + 1,
          bookings := setBookingStatus s.bookings pk BookingStatus.checked_in,
          rooms := setRoomStatus s.rooms booking.room RoomStatus.occupied })

/-- `hotel.views.check_out`: 404 on missing booking; `'No folio'` when
`booking.folio` is `None`; `'Folio already closed'` when it is closed;
otherwise, in one transaction, close the folio stamping `closed_at`, set the
booking `checked_out` and its room `vacant`, and return the invoice computed
from the ledger. -/
def check_out (pk : Nat) (s : Sys) : Except Err Invoice × Sys :=
  match lookupBooking s pk with
  | none => (Except.error Err.notFound, s)
  | some booking =>
    match primaryFolio s pk with
    | none => (Except.error Err.noFolio, s)
    | some folio =>
      if folio.status = FolioStatus.closed then (Except.error Err.alreadyClosed, s)
      else
        (Except.ok
          { total_charges := total_charges s folio.fid,
            total_payments := total_payments s folio.fid,
            balance := total_charges s folio.fid - total_payments s folio.fid },
          { s with
            folios := closeFolioRow s.folios folio.fid s.now,
            bookings := setBookingStatus s.bookings pk BookingStatus.checked_out,
            rooms := setRoomStatus s.rooms booking.room RoomStatus.vacant })

/-- `hotel.views.post_charge`: serializer FK validation resolves the folio
(400 on a miss); 400 `'Cannot post to closed folio'` unless
`folio.can_post_charges()` (status `open`); otherwise compute
pre-tax = quantity × unit price, apply taxes, and append the charge. -/
def post_charge (folio_id : Nat) (sector : String) (quantity unit_price : ℚ) (s : Sys) :
    Except Err ChargeR × Sys :=
  match lookupFolio s folio_id with
  | none => (Except.error Err.validation, s)
  | some folio =>
    if folio.status ≠ FolioStatus.opened then (Except.error Err.folioClosed, s)
    else
      let amount_before := quantity * unit_price
      let taxed := apply_taxes s.taxes amount_before sector
      let c : ChargeR :=
        { folio := folio.fid, sector := sector, quantity := quantity, unit_price := unit_price,
          amount_before_tax := amount_before, tax_amount := taxed.1, amount_after_tax := taxed.2,
          pos_order_id := none, posted_at := s.now }
      (Except.ok c, { s with charges := s.charges ++ [c] })

/-- `hotel.views.post_payment`: serializer FK validation resolves the folio
(400 on a miss); the payment is then created unconditionally (the view never
consults the folio's status); if `issue_receipt` (default `True`), a receipt
with the payment's amount is created, linked one-to-one, and the payment's
`receipt_issued` flag is saved `True`. -/
def post_payment (folio_id : Nat) (amount : ℚ) (issue_receipt : Bool) (s : Sys) :
    Except Err PaymentR × Sys :=
  match lookupFolio s folio_id with
  | none => (Except.error Err.validation, s)
  | some _ =>
    let p : PaymentR :=
      { pid := s.nextPaymentId, folio := folio_id, amount := amount, receipt_issued := false }
    let s1 : Sys := { s with payments := s.payments ++ [p], nextPaymentId := s.nextPaymentId + 1 }
    if issue_receipt then
      let r : ReceiptR := { folio_payment := p.pid, amount := p.amount }
      let p' : PaymentR := { p with receipt_issued := true }
      (Except.ok p',
        { s1 with
          receipts := s1.receipts ++ [r],
          payments := s1.payments.map (fun x => if x.pid = p.pid then p' else x) })
    else (Except.ok p, s1)

/-- The item-resolution loop of `OrderCreateSerializer.create`: each row's
price comes from the catalog (`MenuItem.objects.get`; a miss raises, and the
enclosing transaction rolls back); returns the accumulated pre-tax total. -/
def resolveTotal (menu : List (Nat × ℚ)) : List OrderItemIn → Option ℚ
  | [] => some 0
  | row :: rest =>
    match findRow (fun m => m.1 = row.menu_item_id) menu with
    | none => none
    | some m =>
      match resolveTotal menu rest with
      | none => none
      | some t => some (m.2 * row.quantity + t)

/-- The aggregate charge `OrderListCreate.create` posts for a post-to-room
order: quantity 1, `unit_price` and `amount_after_tax` the order's post-tax
total, `amount_before_tax` its pre-tax total, tagged with the order's id. -/
def posAggregateCharge (s : Sys) (o : OrderR) : ChargeR :=
  { folio := o.folio.getD 0, sector := o.sector, quantity := 1,
    unit_price := o.total_amount, amount_before_tax := o.total_before_tax,
    tax_amount := o.total_tax, amount_after_tax := o.total_amount,
    pos_order_id := some o.oid, posted_at := s.now }

/-- `OrderListCreate.create` + `OrderCreateSerializer.create` inside one
`transaction.atomic()`: resolve the folio (only when `post_to_room` and a
folio id was sent; `filter(pk).first()` yields `None` on a miss, with no
openness check), create the order, resolve item prices (a miss rolls the
whole transaction back), compute the three totals with the inline tax loop,
then — if post-to-room with a resolved folio — append the single aggregate
folio charge, and stamp `completed_at`. -/
def create_order (sector : String) (intent : PaymentIntent) (folio_id : Option Nat)
    (items : List OrderItemIn) (s : Sys) : Except Err OrderR × Sys :=
  let folio : Option Nat :=
    match folio_id, intent with
    | some fid, PaymentIntent.post_to_room => (lookupFolio s fid).map (fun f => f.fid)
    | _, _ => none
  match resolveTotal s.menu_items items with
  | none => (Except.error Err.validation, s)
  | some total_before =>
    let tax_total := order_tax_total s.taxes total_before sector
    let o : OrderR :=
      { oid := s.nextOrderId, sector := sector, payment_intent := intent, folio := folio,
        total_before_tax := total_before, total_tax := tax_total,
        total_amount := total_before + tax_total, completed_at := some s.now }
    let s1 : Sys := { s with orders := s.orders ++ [o], nextOrderId := s.nextOrderId + 1 }
    match intent, folio with
    | PaymentIntent.post_to_room, some _ =>
      (Except.ok o, { s1 with charges := s1.charges ++ [posAggregateCharge s o] })
    | _, _ => (Except.ok o, s1)

/-- The requesting actor as the reports module sees it: `is_manager` flag and
optional department code. -/
structure User where
  is_manager : Bool
  department : Option String
deriving DecidableEq, Repr

/-- `reports.views._sales_queryset(user)` with no date or sector arguments:
all folio charges plus completed POS orders, restricted to the user's
department sector when the user is not a manager and has a department. -/
def sales_queryset (u : User) (s : Sys) : List ChargeR × List OrderR :=
  let q_charges := s.charges
  let q_orders := s.orders.filter (fun o => o.completed_at.isSome)
  match u.is_manager, u.department with
  | false, some sec =>
    (q_charges.filter (fun c => c.sector == sec), q_orders.filter (fun o => o.sector == sec))
  | _, _ => (q_charges, q_orders)

/-- Sum of charges' `amount_after_tax` (`Sum(...) or 0`). -/
def sumCharges (l : List ChargeR) : ℚ := (l.map (fun c => c.amount_after_tax)).sum

/-- Sum of orders' `total_amount`. -/
def sumOrders (l : List OrderR) : ℚ := (l.map (fun o => o.total_amount)).sum

/-- The payload of `reports.views.dashboard`. -/
structure DashOut where
  total_sales : ℚ
  sales_today : ℚ
  sales_this_month : ℚ
  total_expenses : ℚ
  total_salaries : ℚ
  expenses_this_month : ℚ
  salaries_this_month : ℚ
  net_profit : ℚ
  net_profit_this_month : ℚ
  sales_per_sector : List (String × ℚ)
deriving DecidableEq, Repr

/-- `reports.views.dashboard` (after its permission gate): `total_sales` and
`sales_today` are sector-filtered for a non-manager with a department, but
`sales_this_month` aggregates `FolioCharge.objects` and `Order.objects`
globally with only the date filter; the per-sector list skips rows other than
a non-manager's own department. -/
def dashboard (u : User) (s : Sys) (today month_start : Nat) : DashOut :=
  let qs := sales_queryset u s
  let qct0 := s.charges.filter (fun c => c.posted_at == today)
  let qot0 := s.orders.filter (fun o => o.completed_at == some today)
  let qct :=
    match u.is_manager, u.department with
    | false, some sec => qct0.filter (fun c => c.sector == sec)
    | _, _ => qct0
  let qot :=
    match u.is_manager, u.department with
    | false, some sec => qot0.filter (fun o => o.sector == sec)
    | _, _ => qot0
  let total_sales := sumCharges qs.1 + sumOrders qs.2
  let sales_today := sumCharges qct + sumOrders qot
  let sales_this_month :=
    sumCharges (s.charges.filter (fun c => decide (month_start ≤ c.posted_at)))
      + sumOrders (s.orders.filter (fun o =>
          match o.completed_at with
          | some d => decide (month_start ≤ d)
          | none => false))
  let total_expenses := (s.expenses.map (fun e => e.amount)).sum
  let total_salaries := (s.salaries.map (fun x => x.amount)).sum
  let expenses_this_month :=
    ((s.expenses.filter (fun e => decide (month_start ≤ e.created_day))).map (fun e => e.amount)).sum
  let salaries_this_month :=
    ((s.salaries.filter (fun x => decide (month_start ≤ x.month))).map (fun x => x.amount)).sum
  let allowed : String → Bool := fun code =>
    match u.is_manager, u.department with
    | false, some sec => sec == code
    | _, _ => true
  let sales_per_sector :=
    ((["rooms", "restaurant", "bar", "housekeeping", "activities"].filter allowed).map
      (fun code =>
        (code,
          sumCharges (s.charges.filter (fun c => c.sector == code))
            + sumOrders (s.orders.filter (fun o => o.sector == code)))))
  { total_sales := total_sales,
    sales_today := sales_today,
    sales_this_month := sales_this_month,
    total_expenses := total_expenses,
    total_salaries := total_salaries,
    expenses_this_month := expenses_this_month,
    salaries_this_month := salaries_this_month,
    net_profit := total_sales - total_expenses - total_salaries,
    net_profit_this_month := sales_this_month - expenses_this_month - salaries_this_month,
    sales_per_sector := sales_per_sector }

/-- An empty database with a single 18% all-sector exclusive tax configured. -/
def baseSys : Sys :=
  { rooms := [], bookings := [], folios := [], charges := [], payments := [],
    receipts := [], orders := [], taxes := [vat18], menu_items := [],
    expenses := [], salaries := [],
    nextBookingId := 1, nextFolioId := 1, nextPaymentId := 1, nextOrderId := 1, now := 0 }

/-- An open primary folio for booking 1. -/
def openFolio1 : FolioR :=
  { fid := 1, booking := 1, is_primary := true, status := FolioStatus.opened, closed_at := none }

/-- A closed primary folio for booking 1. -/
def closedFolio1 : FolioR :=
  { fid := 1, booking := 1, is_primary := true, status := FolioStatus.closed, closed_at := some 0 }

/-- One vacant room and one pending booking for it (the start of the spec's
Scenario B). -/
def sPending : Sys :=
  { baseSys with
    rooms := [{ rid := 1, status := RoomStatus.vacant }],
    bookings := [{ bid := 1, room := 1, status := BookingStatus.pending }],
    nextBookingId := 2 }

/-- A checked-out stay whose folio is closed. -/
def sClosed : Sys :=
  { baseSys with
    rooms := [{ rid := 1, status := RoomStatus.vacant }],
    bookings := [{ bid := 1, room := 1, status := BookingStatus.checked_out }],
    folios := [closedFolio1],
    nextBookingId := 2, nextFolioId := 2 }

/-- `sClosed` plus a POS menu item priced 100000. -/
def sPosClosed : Sys := { sClosed with menu_items := [(1, 100000)] }

/-- An in-house stay: open folio holding one 118000 charge and one 50000
receipted payment (the spec's Scenario C ledger). -/
def sLedger : Sys :=
  { baseSys with
    rooms := [{ rid := 1, status := RoomStatus.occupied }],
    bookings := [{ bid := 1, room := 1, status := BookingStatus.checked_in }],
    folios := [openFolio1],
    charges := [{ folio := 1, sector := "rooms", quantity := 1, unit_price := 100000,
                  amount_before_tax := 100000, tax_amount := 18000, amount_after_tax := 118000,
                  pos_order_id := none, posted_at := 0 }],
    payments := [{ pid := 1, folio := 1, amount := 50000, receipt_issued := true }],
    receipts := [{ folio_payment := 1, amount := 50000 }],
    nextBookingId := 2, nextFolioId := 2, nextPaymentId := 2 }

/-- An in-house stay with an open folio, an empty ledger, and a menu item
priced 10000 (the spec's Scenario D, sector `bar`). -/
def sPosOpen : Sys :=
  { baseSys with
    rooms := [{ rid := 1, status := RoomStatus.occupied }],
    bookings := [{ bid := 1, room := 1, status := BookingStatus.checked_in }],
    folios := [openFolio1],
    menu_items := [(1, 10000)],
    nextBookingId := 2, nextFolioId := 2 }

/-- Start state of the double-check-in trace: one vacant room, nothing else. -/
def s5 : Sys := { baseSys with rooms := [{ rid := 1, status := RoomStatus.vacant }] }

/-- After `create_booking`: booking 1 is `pending`. -/
def s5a : Sys := (create_booking 1 s5).2

/-- After the first `check_in`: folio 1 is open and primary. -/
def s5b : Sys := (check_in 1 s5a).2

/-- After a `BookingDetail` PATCH writing `status = 'pending'` (the serializer
exposes `status` as a writable field). -/
def s5c : Sys := (update_booking_status 1 BookingStatus.pending s5b).2

/-- After the second `check_in`, accepted because the status was reset. -/
def s5d : Sys := (check_in 1 s5c).2

/-- A non-manager actor assigned to the `restaurant` department. -/
def restaurantStaff : User := { is_manager := false, department := some "restaurant" }

/-- A restaurant charge posted on day 5. -/
def restCharge : ChargeR :=
  { folio := 1, sector := "restaurant", quantity := 1, unit_price := 10000,
    amount_before_tax := 10000, tax_amount := 1800, amount_after_tax := 11800,
    pos_order_id := none, posted_at := 5 }

/-- A bar charge posted on day 5. -/
def barCharge : ChargeR :=
  { folio := 1, sector := "bar", quantity := 1, unit_price := 20000,
    amount_before_tax := 20000, tax_amount := 3600, amount_after_tax := 23600,
    pos_order_id := none, posted_at := 5 }

/-- Dashboard scenario: only the restaurant charge exists. -/
def s8a : Sys := { baseSys with folios := [openFolio1], charges := [restCharge] }

/-- `s8a` with one additional bar-sector charge — the two states agree on all
restaurant data. -/
def s8b : Sys := { s8a with charges := s8a.charges ++ [barCharge] }

/-- The aggregate charge the POS posts for Scenario D's order (one 10000 bar
item, 18% exclusive tax). -/
def posBarCharge : ChargeR :=
  { folio := 1, sector := "bar", quantity := 1, unit_price := 11800,
    amount_before_tax := 10000, tax_amount := 1800, amount_after_tax := 11800,
    pos_order_id := some 1, posted_at := 0 }

/-- The charge `post_charge` appends for quantity 2 × unit price 50000 in
sector `restaurant` under the 18% schedule (Scenario A). -/
def chargeW : ChargeR :=
  { folio := 1, sector := "restaurant", quantity := 2, unit_price := 50000,
    amount_before_tax := 100000, tax_amount := 18000, amount_after_tax := 118000,
    pos_order_id := none, posted_at := 0 }

theorem hotelTaxLoop_eq_sum (amount : ℚ) (sector : String) (l : List Tax)
    (hl : ∀ t ∈ l, t.is_active = true) :
    hotelTaxLoop amount sector l
      = ((l.filter (taxApplies sector)).map (fun t => amount * (t.percentage / 100))).sum := by
  induction l with
  | nil => simp [hotelTaxLoop]
  | cons t ts ih =>
    have ht : t.is_active = true := hl t (List.mem_cons_self t ts)
    have ih' := ih (fun x hx => hl x (List.mem_cons_of_mem t hx))
    by_cases hskip : t.sectors ≠ [] ∧ sector ∉ t.sectors
    · have happ : taxApplies sector t = false := by
        rcases hskip with ⟨hne, hni⟩
        simp [taxApplies, ht, List.isEmpty_iff, hne, hni]
      simp [hotelTaxLoop, if_pos hskip, List.filter_cons, happ, ih']
    · by_cases hexc : t.tax_type = TaxType.exclusive
      · have happ : taxApplies sector t = true := by
          rcases not_and_or.mp hskip with hne | hni
          · simp [taxApplies, ht, hexc, List.isEmpty_iff, not_not.mp hne]
          · simp [taxApplies, ht, hexc, not_not.mp hni]
        simp [hotelTaxLoop, if_neg hskip, if_pos hexc, List.filter_cons, happ, ih']
      · have happ : taxApplies sector t = false := by
          simp [taxApplies, hexc]
        simp [hotelTaxLoop, if_neg hskip, if_neg hexc, List.filter_cons, happ, ih']

theorem filter_active_all_active (l : List Tax) :
    ∀ t ∈ l.filter (fun t => t.is_active), t.is_active = true := by
  intro t ht
  exact (List.mem_filter.mp ht).2

theorem taxApplies_filter_active (sector : String) (l : List Tax) :
    (l.filter (fun t => t.is_active)).filter (taxApplies sector)
      = l.filter (taxApplies sector) := by
  rw [List.filter_filter]
  apply List.filter_congr
  intro t _
  cases ha : t.is_active
  · simp [taxApplies, ha]
  · simp [taxApplies, ha]

/-- C4 -- The Tax Engine returns `taxAmount` equal to the sum, over all taxes
with `active = true`, sector scope empty or containing the sector, and
`type = exclusive`, of `preTaxAmount * percentage / 100` (inclusive taxes
contributing zero, which the summation over exclusive-only taxes expresses),
and `postTaxAmount = preTaxAmount + taxAmount`; in particular a single 18%
exclusive all-sector tax takes a pre-tax 100000 to tax 18000 and post-tax
118000. -/
theorem apply_taxes_spec (taxes : List Tax) (amount : ℚ) (sector : String) :
    (apply_taxes taxes amount sector).1
        = ((taxes.filter (taxApplies sector)).map (fun t => amount * (t.percentage / 100))).sum ∧
    (apply_taxes taxes amount sector).2 = amount + (apply_taxes taxes amount sector).1 ∧
    apply_taxes [vat18] 100000 "restaurant" = (18000, 118000) := by
  refine ⟨?_, rfl, by simp [apply_taxes, hotelTaxLoop, vat18]; norm_num⟩
  have h := hotelTaxLoop_eq_sum amount sector (taxes.filter (fun t => t.is_active))
    (filter_active_all_active taxes)
  rw [apply_taxes]
  simp only [h, taxApplies_filter_active]

theorem posTaxLoop_eq_hotelTaxLoop (amount : ℚ) (sector : String) (l : List Tax) :
    posTaxLoop amount sector l = hotelTaxLoop amount sector l := by
  induction l with
  | nil => rfl
  | cons t ts ih => simp only [posTaxLoop, hotelTaxLoop, ih]

theorem orderTaxLoop_eq_hotelTaxLoop (amount : ℚ) (sector : String) (l : List Tax) :
    orderTaxLoop amount sector l = hotelTaxLoop amount sector l := by
  induction l with
  | nil => rfl
  | cons t ts ih => simp only [orderTaxLoop, hotelTaxLoop, ih]

/-- C10 -- For every tax schedule, pre-tax amount and sector, the tax amount
computed by the hotel module's `apply_taxes` equals the one computed by the
POS module's `_apply_taxes` and the one computed inline by
`OrderCreateSerializer.create`: both charge sources apply the schedule
identically. -/
theorem tax_engines_agree (taxes : List Tax) (amount : ℚ) (sector : String) :
    (apply_taxes taxes amount sector).1 = pos_apply_taxes taxes amount sector ∧
    (apply_taxes taxes amount sector).1 = order_tax_total taxes amount sector := by
  constructor
  · rw [apply_taxes, pos_apply_taxes, posTaxLoop_eq_hotelTaxLoop]
  · rw [apply_taxes, order_tax_total, orderTaxLoop_eq_hotelTaxLoop]

theorem findRow_map_update {α : Type} (key : α → Nat) (p : Nat) (g : α → α)
    (hg : ∀ a, key (g a) = key a) (l : List α) :
    findRow (fun a => key a = p) (l.map (fun a => if key a = p then g a else a))
      = (findRow (fun a => key a = p) l).map g := by
  induction l with
  | nil => rfl
  | cons x xs ih =>
    by_cases hx : key x = p
    · simp [findRow, hg, hx]
    · simp [findRow, hx, ih]

theorem map_update_of_fresh {α : Type} (key : α → Nat) (p : Nat) (g : α → α) (l : List α)
    (h : ∀ a ∈ l, key a ≠ p) :
    l.map (fun a => if key a = p then g a else a) = l := by
  induction l with
  | nil => rfl
  | cons x xs ih =>
    have hx : ¬ key x = p := h x (List.mem_cons_self x xs)
    simp [hx, ih (fun a ha => h a (List.mem_cons_of_mem x ha))]

/-- C2 -- Check-in succeeds exactly when the booking's status is `pending` or
`confirmed`; on success it creates a new open primary folio bound to the
booking, sets the room `occupied` and the booking `checked_in`; a second
check-in call on the same booking then fails with the invalid-state error and
returns the state unchanged. -/
theorem check_in_spec (s : Sys) (pk : Nat) (b : BookingR)
    (hb : lookupBooking s pk = some b) :
    ((check_in pk s).1.isOk = true ↔
        (b.status = BookingStatus.pending ∨ b.status = BookingStatus.confirmed)) ∧
    (¬(b.status = BookingStatus.pending ∨ b.status = BookingStatus.confirmed) →
      check_in pk s = (Except.error Err.invalidState, s)) ∧
    ((b.status = BookingStatus.pending ∨ b.status = BookingStatus.confirmed) →
      (check_in pk s).1 = Except.ok (newFolio s pk) ∧
      (newFolio s pk).status = FolioStatus.opened ∧
      (newFolio s pk).is_primary = true ∧
      (newFolio s pk).booking = pk ∧
      (check_in pk s).2.folios = newFolio s pk :: s.folios ∧
      lookupBooking (check_in pk s).2 pk = some { b with status := BookingStatus.checked_in } ∧
      lookupRoom (check_in pk s).2 b.room
        = (lookupRoom s b.room).map (fun r => { r with status := RoomStatus.occupied }) ∧
      check_in pk (check_in pk s).2 = (Except.error Err.invalidState, (check_in pk s).2)) := by
  by_cases hst : b.status = BookingStatus.pending ∨ b.status = BookingStatus.confirmed
  · have hcond : ¬(b.status ≠ BookingStatus.confirmed ∧ b.status ≠ BookingStatus.pending) := by
      tauto
    have hrun : check_in pk s =
        (Except.ok (newFolio s pk),
          { s with
            folios := newFolio s pk :: s.folios,
            nextFolioId := s.nextFolioId + 1,
            bookings := setBookingStatus s.bookings pk BookingStatus.checked_in,
            rooms := setRoomStatus s.rooms b.room RoomStatus.occupied }) := by
      unfold check_in
      rw [hb]
      simp [hcond]
    have hlb : lookupBooking (check_in pk s).2 pk
        = some { b with status := BookingStatus.checked_in } := by
      rw [hrun]
      show findRow (fun x => x.bid = pk)
        (setBookingStatus s.bookings pk BookingStatus.checked_in) = _
      unfold setBookingStatus
      rw [findRow_map_update BookingR.bid pk (fun x => { x with status := BookingStatus.checked_in })
        (fun a => rfl) s.bookings]
      have hb' : findRow (fun x => x.bid = pk) s.bookings = some b := hb
      rw [hb']
      rfl
    refine ⟨?_, fun h => absurd hst h, fun _ => ⟨by rw [hrun], rfl, rfl, rfl, by rw [hrun], hlb, ?_, ?_⟩⟩
    · rw [hrun]
      exact iff_of_true rfl hst
    · rw [hrun]
      exact findRow_map_update RoomR.rid b.room (fun r => { r with status := RoomStatus.occupied })
        (fun a => rfl) s.rooms
    · generalize (check_in pk s).2 = s2 at hlb ⊢
      unfold check_in
      rw [hlb]
      simp
  · have hcond : b.status ≠ BookingStatus.confirmed ∧ b.status ≠ BookingStatus.pending := by
      tauto
    have hrun : check_in pk s = (Except.error Err.invalidState, s) := by
      unfold check_in
      rw [hb]
      simp [hcond]
    refine ⟨?_, fun _ => hrun, fun h => absurd h hst⟩
    rw [hrun]
    exact iff_of_false (by exact Bool.false_ne_true) hst

theorem check_in_spec_witness : (check_in 1 sPending).1.isOk = true :=
  (check_in_spec sPending 1 { bid := 1, room := 1, status := BookingStatus.pending }
    rfl).1.mpr (Or.inl rfl)

/-- C1 -- On a closed folio, `post_charge` does fail (folio-closed error,
state unchanged), but `post_payment` — which the claim says must fail the
same way — succeeds: it appends the payment to the closed folio's ledger and
issues a receipt. Evaluates the code at the failing input. -/
theorem post_payment_closed_folio_bug :
    post_charge 1 "rooms" 1 10000 sClosed = (Except.error Err.folioClosed, sClosed) ∧
    (post_payment 1 50000 true sClosed).1
      = Except.ok { pid := 1, folio := 1, amount := 50000, receipt_issued := true } ∧
    (post_payment 1 50000 true sClosed).2.payments
      = [{ pid := 1, folio := 1, amount := 50000, receipt_issued := true }] ∧
    (post_payment 1 50000 true sClosed).2.receipts
      = [{ folio_payment := 1, amount := 50000 }] := by
  refine ⟨rfl, rfl, rfl, rfl⟩

/-- C3 -- A post-to-room order resolved to a closed folio is not rejected:
the order is persisted and the aggregate charge is appended to the closed
folio, where the claim requires the operation to fail with nothing
persisted. Evaluates the code at the failing input. -/
theorem create_order_closed_folio_bug :
    (lookupFolio sPosClosed 1).map (fun f => f.status) = some FolioStatus.closed ∧
    (create_order "restaurant" PaymentIntent.post_to_room (some 1)
        [{ menu_item_id := 1, quantity := 1 }] sPosClosed).1.isOk = true ∧
    (create_order "restaurant" PaymentIntent.post_to_room (some 1)
        [{ menu_item_id := 1, quantity := 1 }] sPosClosed).2.orders.length = 1 ∧
    (create_order "restaurant" PaymentIntent.post_to_room (some 1)
        [{ menu_item_id := 1, quantity := 1 }] sPosClosed).2.charges
      = [{ folio := 1, sector := "restaurant", quantity := 1, unit_price := 118000,
           amount_before_tax := 100000, tax_amount := 18000, amount_after_tax := 118000,
           pos_order_id := some 1, posted_at := 0 }] := by
  refine ⟨rfl, ?_, ?_, ?_⟩
  all_goals
    simp [create_order, resolveTotal, findRow, lookupFolio, sPosClosed, sClosed, baseSys,
      closedFolio1, order_tax_total, orderTaxLoop, vat18, posAggregateCharge, Except.isOk,
      Except.toBool]
  all_goals norm_num

/-- C5 -- A trace of the system's own operations that ends with two open
primary folios for one booking: create a booking, check it in, reset its
status to `pending` through the booking-update endpoint (whose serializer
leaves `status` writable), and check it in a second time; the second
check-in is accepted and creates a second primary folio. Refutes the
at-most-one-primary-folio reachability invariant. -/
theorem double_check_in_two_primary_folios :
    (create_booking 1 s5).1.isOk = true ∧
    (check_in 1 s5a).1.isOk = true ∧
    (update_booking_status 1 BookingStatus.pending s5b).1.isOk = true ∧
    (check_in 1 s5c).1.isOk = true ∧
    (s5d.folios.filter (fun f => decide (f.booking = 1 ∧ f.is_primary = true))).length = 2 ∧
    (s5d.folios.filter (fun f =>
        decide (f.booking = 1 ∧ f.is_primary = true ∧ f.status = FolioStatus.opened))).length = 2 := by
  refine ⟨rfl, rfl, rfl, rfl, rfl, rfl⟩

/-- C6 -- Check-out fails with the no-folio error when the booking has no
(primary) folio and with the already-closed error when the folio is closed,
each leaving the state unchanged; otherwise it closes the folio with
`closed_at = now`, sets the booking `checked_out` and the room `vacant`, and
returns an invoice whose `totalCharges`, `totalPayments` and `balance` are the
read-time sums over the unchanged ledger (`balance` their difference). -/
theorem check_out_spec (s : Sys) (pk : Nat) (b : BookingR)
    (hb : lookupBooking s pk = some b) :
    (primaryFolio s pk = none → check_out pk s = (Except.error Err.noFolio, s)) ∧
    (∀ f, primaryFolio s pk = some f →
      (f.status = FolioStatus.closed → check_out pk s = (Except.error Err.alreadyClosed, s)) ∧
      (f.status = FolioStatus.opened → lookupFolio s f.fid = some f →
        (check_out pk s).1 = Except.ok
          { total_charges := total_charges s f.fid,
            total_payments := total_payments s f.fid,
            balance := total_charges s f.fid - total_payments s f.fid } ∧
        lookupFolio (check_out pk s).2 f.fid
          = some { f with status := FolioStatus.closed, closed_at := some s.now } ∧
        lookupBooking (check_out pk s).2 pk = some { b with status := BookingStatus.checked_out } ∧
        lookupRoom (check_out pk s).2 b.room
          = (lookupRoom s b.room).map (fun r => { r with status := RoomStatus.vacant }) ∧
        (check_out pk s).2.charges = s.charges ∧
        (check_out pk s).2.payments = s.payments)) := by
  constructor
  · intro hnone
    unfold check_out
    rw [hb, hnone]
  · intro f hf
    constructor
    · intro hclosed
      unfold check_out
      rw [hb, hf]
      simp [hclosed]
    · intro hopen hlf
      have hcond : ¬(f.status = FolioStatus.closed) := by
        rw [hopen]
        exact fun h => nomatch h
      have hrun : check_out pk s =
          (Except.ok
            { total_charges := total_charges s f.fid,
              total_payments := total_payments s f.fid,
              balance := total_charges s f.fid - total_payments s f.fid },
            { s with
              folios := closeFolioRow s.folios f.fid s.now,
              bookings := setBookingStatus s.bookings pk BookingStatus.checked_out,
              rooms := setRoomStatus s.rooms b.room RoomStatus.vacant }) := by
        unfold check_out
        rw [hb, hf]
        simp [hcond]
      refine ⟨by rw [hrun], ?_, ?_, ?_, by rw [hrun], by rw [hrun]⟩
      · rw [hrun]
        show findRow (fun x => x.fid = f.fid) (closeFolioRow s.folios f.fid s.now) = _
        unfold closeFolioRow
        rw [findRow_map_update FolioR.fid f.fid
          (fun x => { x with status := FolioStatus.closed, closed_at := some s.now })
          (fun a => rfl) s.folios]
        have hlf' : findRow (fun x => x.fid = f.fid) s.folios = some f := hlf
        rw [hlf']
        rfl
      · rw [hrun]
        show findRow (fun x => x.bid = pk) (setBookingStatus s.bookings pk BookingStatus.checked_out) = _
        unfold setBookingStatus
        rw [findRow_map_update BookingR.bid pk
          (fun x => { x with status := BookingStatus.checked_out }) (fun a => rfl) s.bookings]
        have hb' : findRow (fun x => x.bid = pk) s.bookings = some b := hb
        rw [hb']
        rfl
      · rw [hrun]
        exact findRow_map_update RoomR.rid b.room (fun r => { r with status := RoomStatus.vacant })
          (fun a => rfl) s.rooms

theorem check_out_spec_witness :
    (check_out 1 sLedger).1 = Except.ok
      { total_charges := total_charges sLedger 1,
        total_payments := total_payments sLedger 1,
        balance := total_charges sLedger 1 - total_payments sLedger 1 } :=
  (((check_out_spec sLedger 1 { bid := 1, room := 1, status := BookingStatus.checked_in } rfl).2
    openFolio1 rfl).2 rfl rfl).1

/-- C9 -- With `issueReceipt = true` (the view's default), `post_payment`
appends the payment with its receipt-issued flag saved true and creates
exactly one receipt, linked one-to-one to that payment (`folio_payment` is the
new payment's id) with the payment's amount; with `issueReceipt = false` it
appends the payment with the flag false and creates no receipt. -/
theorem post_payment_receipt_spec (s : Sys) (folio_id : Nat) (amount : ℚ) (f : FolioR)
    (hf : lookupFolio s folio_id = some f)
    (fresh : ∀ q ∈ s.payments, q.pid ≠ s.nextPaymentId) :
    ((post_payment folio_id amount true s).1
        = Except.ok { pid := s.nextPaymentId, folio := folio_id, amount := amount,
                      receipt_issued := true } ∧
      (post_payment folio_id amount true s).2.payments
        = s.payments ++ [{ pid := s.nextPaymentId, folio := folio_id, amount := amount,
                           receipt_issued := true }] ∧
      (post_payment folio_id amount true s).2.receipts
        = s.receipts ++ [{ folio_payment := s.nextPaymentId, amount := amount }]) ∧
    ((post_payment folio_id amount false s).1
        = Except.ok { pid := s.nextPaymentId, folio := folio_id, amount := amount,
                      receipt_issued := false } ∧
      (post_payment folio_id amount false s).2.payments
        = s.payments ++ [{ pid := s.nextPaymentId, folio := folio_id, amount := amount,
                           receipt_issued := false }] ∧
      (post_payment folio_id amount false s).2.receipts = s.receipts) := by
  have hnoop : s.payments.map
      (fun x => if x.pid = s.nextPaymentId
        then ({ pid := s.nextPaymentId, folio := folio_id, amount := amount,
                receipt_issued := true } : PaymentR) else x) = s.payments :=
    map_update_of_fresh PaymentR.pid s.nextPaymentId
      (fun _ => { pid := s.nextPaymentId, folio := folio_id, amount := amount,
                  receipt_issued := true }) s.payments fresh
  have hmap : (s.payments ++
      [({ pid := s.nextPaymentId, folio := folio_id, amount := amount,
          receipt_issued := false } : PaymentR)]).map
      (fun x => if x.pid = s.nextPaymentId
        then ({ pid := s.nextPaymentId, folio := folio_id, amount := amount,
                receipt_issued := true } : PaymentR) else x)
      = s.payments ++ [{ pid := s.nextPaymentId, folio := folio_id, amount := amount,
                         receipt_issued := true }] := by
    rw [List.map_append, hnoop]
    simp
  constructor
  · refine ⟨?_, ?_, ?_⟩ <;>
      (unfold post_payment; rw [hf]) <;>
      simp [hmap]
  · refine ⟨?_, ?_, ?_⟩ <;>
      (unfold post_payment; rw [hf]) <;>
      simp

theorem post_payment_receipt_witness :
    (post_payment 1 50000 true sPosOpen).2.receipts = [{ folio_payment := 1, amount := 50000 }] := by
  have h := (post_payment_receipt_spec sPosOpen 1 50000 openFolio1 rfl
    (by intro q hq; exact absurd hq (List.not_mem_nil q))).1.2.2
  simpa [sPosOpen, baseSys] using h

/-- C7 (counterexample) -- The aggregate charge the POS posts for a 10000
pre-tax order under an 18% exclusive tax has `quantity = 1` and
`unit_price = 11800` (the post-tax total), so its pre-tax amount 10000 is not
`quantity × unit_price`: the claimed invariant fails for POS-created
charges. -/
theorem pos_charge_pretax_counterexample :
    (create_order "bar" PaymentIntent.post_to_room (some 1)
        [{ menu_item_id := 1, quantity := 1 }] sPosOpen).2.charges = [posBarCharge] ∧
    posBarCharge.amount_before_tax ≠ posBarCharge.quantity * posBarCharge.unit_price := by
  constructor
  · simp [create_order, resolveTotal, findRow, lookupFolio, sPosOpen, baseSys, openFolio1,
      order_tax_total, orderTaxLoop, vat18, posAggregateCharge, posBarCharge]
    norm_num
  · norm_num [posBarCharge]

/-- C7 (amended) -- Every charge created by direct folio posting satisfies
pre-tax = quantity × unit price and post-tax = pre-tax + tax; a charge created
by POS post-to-room satisfies post-tax = pre-tax + tax, but it is posted with
quantity 1 and unit price equal to the order's post-tax total while its
pre-tax amount is the order's pre-tax total, so pre-tax = quantity × unit
price holds for it only when the order's tax is zero. -/
theorem charge_derivation_spec (s : Sys) :
    (∀ fid sec q u c s2, post_charge fid sec q u s = (Except.ok c, s2) →
      c.amount_before_tax = c.quantity * c.unit_price ∧
      c.amount_after_tax = c.amount_before_tax + c.tax_amount ∧
      s2.charges = s.charges ++ [c]) ∧
    (∀ sec intent fids items o s2,
      create_order sec intent fids items s = (Except.ok o, s2) →
      o.total_amount = o.total_before_tax + o.total_tax ∧
      (s2.charges = s.charges ∨
        (s2.charges = s.charges ++ [posAggregateCharge s o] ∧
          (posAggregateCharge s o).quantity = 1 ∧
          (posAggregateCharge s o).unit_price = o.total_amount ∧
          (posAggregateCharge s o).amount_before_tax = o.total_before_tax ∧
          (posAggregateCharge s o).amount_after_tax
            = (posAggregateCharge s o).amount_before_tax
              + (posAggregateCharge s o).tax_amount))) := by
  constructor
  · intro fid sec q u c s2 h
    cases hf : lookupFolio s fid with
    | none =>
      have hrun : post_charge fid sec q u s = (Except.error Err.validation, s) := by
        unfold post_charge
        simp [hf]
      rw [hrun] at h
      simp at h
    | some folio =>
      by_cases hst : folio.status ≠ FolioStatus.opened
      · have hrun : post_charge fid sec q u s = (Except.error Err.folioClosed, s) := by
          unfold post_charge
          simp [hf, hst]
        rw [hrun] at h
        simp at h
      · have heq := not_not.mp hst
        have hrun : post_charge fid sec q u s =
            (Except.ok
              ({ folio := folio.fid, sector := sec, quantity := q, unit_price := u,
                 amount_before_tax := q * u,
                 tax_amount := (apply_taxes s.taxes (q * u) sec).1,
                 amount_after_tax := (apply_taxes s.taxes (q * u) sec).2,
                 pos_order_id := none, posted_at := s.now } : ChargeR),
              { s with charges := s.charges ++
                [{ folio := folio.fid, sector := sec, quantity := q, unit_price := u,
                   amount_before_tax := q * u,
                   tax_amount := (apply_taxes s.taxes (q * u) sec).1,
                   amount_after_tax := (apply_taxes s.taxes (q * u) sec).2,
                   pos_order_id := none, posted_at := s.now }] }) := by
          unfold post_charge
          simp [hf, heq]
        rw [hrun] at h
        simp only [Prod.mk.injEq, Except.ok.injEq] at h
        obtain ⟨h1, h2⟩ := h
        subst h1
        exact ⟨rfl, rfl, by rw [← h2]⟩
  · intro sec intent fids items o s2 h
    cases hr : resolveTotal s.menu_items items with
    | none =>
      have hrun : create_order sec intent fids items s = (Except.error Err.validation, s) := by
        unfold create_order
        simp [hr]
      rw [hrun] at h
      simp at h
    | some total_before =>
      cases intent with
      | pay_now =>
        have hrun : create_order sec PaymentIntent.pay_now fids items s =
            (Except.ok (OrderR.mk s.nextOrderId sec PaymentIntent.pay_now none total_before
              (order_tax_total s.taxes total_before sec)
              (total_before + order_tax_total s.taxes total_before sec) (some s.now)),
             { s with
               orders := s.orders ++ [OrderR.mk s.nextOrderId sec PaymentIntent.pay_now none
                 total_before (order_tax_total s.taxes total_before sec)
                 (total_before + order_tax_total s.taxes total_before sec) (some s.now)],
               nextOrderId := s.nextOrderId + 1 }) := by
          unfold create_order
          cases fids with
          | none => simp [hr]
          | some fid => simp [hr]
        rw [hrun] at h
        simp only [Prod.mk.injEq, Except.ok.injEq] at h
        obtain ⟨h1, h2⟩ := h
        subst h1
        exact ⟨rfl, Or.inl (by rw [← h2])⟩
      | post_to_room =>
        cases fids with
        | none =>
          have hrun : create_order sec PaymentIntent.post_to_room none items s =
              (Except.ok (OrderR.mk s.nextOrderId sec PaymentIntent.post_to_room none total_before
                (order_tax_total s.taxes total_before sec)
                (total_before + order_tax_total s.taxes total_before sec) (some s.now)),
               { s with
                 orders := s.orders ++ [OrderR.mk s.nextOrderId sec PaymentIntent.post_to_room none
                   total_before (order_tax_total s.taxes total_before sec)
                   (total_before + order_tax_total s.taxes total_before sec) (some s.now)],
                 nextOrderId := s.nextOrderId + 1 }) := by
            unfold create_order
            simp [hr]
          rw [hrun] at h
          simp only [Prod.mk.injEq, Except.ok.injEq] at h
          obtain ⟨h1, h2⟩ := h
          subst h1
          exact ⟨rfl, Or.inl (by rw [← h2])⟩
        | some fid =>
          cases hlf : lookupFolio s fid with
          | none =>
            have hrun : create_order sec PaymentIntent.post_to_room (some fid) items s =
                (Except.ok (OrderR.mk s.nextOrderId sec PaymentIntent.post_to_room none total_before
                  (order_tax_total s.taxes total_before sec)
                  (total_before + order_tax_total s.taxes total_before sec) (some s.now)),
                 { s with
                   orders := s.orders ++ [OrderR.mk s.nextOrderId sec PaymentIntent.post_to_room
                     none total_before (order_tax_total s.taxes total_before sec)
                     (total_before + order_tax_total s.taxes total_before sec) (some s.now)],
                   nextOrderId := s.nextOrderId + 1 }) := by
              unfold create_order
              simp [hr, hlf]
            rw [hrun] at h
            simp only [Prod.mk.injEq, Except.ok.injEq] at h
            obtain ⟨h1, h2⟩ := h
            subst h1
            exact ⟨rfl, Or.inl (by rw [← h2])⟩
          | some f =>
            have hrun : create_order sec PaymentIntent.post_to_room (some fid) items s =
                (Except.ok (OrderR.mk s.nextOrderId sec PaymentIntent.post_to_room (some f.fid)
                  total_before (order_tax_total s.taxes total_before sec)
                  (total_before + order_tax_total s.taxes total_before sec) (some s.now)),
                 { s with
                   orders := s.orders ++ [OrderR.mk s.nextOrderId sec PaymentIntent.post_to_room
                     (some f.fid) total_before (order_tax_total s.taxes total_before sec)
                     (total_before + order_tax_total s.taxes total_before sec) (some s.now)],
                   nextOrderId := s.nextOrderId + 1,
                   charges := s.charges ++ [posAggregateCharge s
                     (OrderR.mk s.nextOrderId sec PaymentIntent.post_to_room (some f.fid)
                       total_before (order_tax_total s.taxes total_before sec)
                       (total_before + order_tax_total s.taxes total_before sec) (some s.now))] }) := by
              unfold create_order
              simp [hr, hlf, posAggregateCharge]
            rw [hrun] at h
            simp only [Prod.mk.injEq, Except.ok.injEq] at h
            obtain ⟨h1, h2⟩ := h
            subst h1
            exact ⟨rfl, Or.inr ⟨by rw [← h2], rfl, rfl, rfl, rfl⟩⟩

theorem charge_derivation_witness :
    chargeW.amount_before_tax = chargeW.quantity * chargeW.unit_price ∧
    chargeW.amount_after_tax = chargeW.amount_before_tax + chargeW.tax_amount := by
  have h := (charge_derivation_spec sLedger).1 1 "restaurant" 2 50000 chargeW
    { sLedger with charges := sLedger.charges ++ [chargeW] }
    (by norm_num [post_charge, lookupFolio, findRow, sLedger, baseSys, openFolio1, apply_taxes,
      hotelTaxLoop, vat18, chargeW])
  exact ⟨h.1, h.2.1⟩

/-- C8 -- For the non-manager restaurant actor, two states that differ only by
an extra bar-sector charge posted this month give identical `total_sales`,
`sales_today` and per-sector figures (those are sector-filtered), but
different `sales_this_month`: that figure aggregates all sectors with no
department filter, so the actor does obtain other sectors' figures through the
dashboard, refuting the claimed non-interference. -/
theorem dashboard_sales_this_month_leak :
    s8b.charges = s8a.charges ++ [barCharge] ∧
    barCharge.sector = "bar" ∧
    restaurantStaff.is_manager = false ∧
    restaurantStaff.department = some "restaurant" ∧
    (dashboard restaurantStaff s8a 5 1).total_sales
      = (dashboard restaurantStaff s8b 5 1).total_sales ∧
    (dashboard restaurantStaff s8a 5 1).sales_today
      = (dashboard restaurantStaff s8b 5 1).sales_today ∧
    (dashboard restaurantStaff s8a 5 1).sales_per_sector
      = (dashboard restaurantStaff s8b 5 1).sales_per_sector ∧
    (dashboard restaurantStaff s8a 5 1).sales_this_month
      ≠ (dashboard restaurantStaff s8b 5 1).sales_this_month := by
  refine ⟨rfl, rfl, rfl, rfl, ?_, ?_, ?_, ?_⟩ <;>
    simp [dashboard, sales_queryset, sumCharges, sumOrders, s8a, s8b, baseSys,
      restaurantStaff, restCharge, barCharge, openFolio1]

end Kalongo
